import Mathlib

/-!
# Taskmaster — shallow embedding and verification

A shallow embedding of the Taskmaster process supervisor (Rust sources:
`config.rs`, `program.rs`, `commands.rs`, `logs.rs`), together with theorems
settling the specification claims about it.

Modelling conventions:
* machine integers (`u32`, `usize`, `c_int` wait statuses) become `Nat`;
* `Instant` becomes a `Nat` timestamp (only ordering is ever used);
* `f64` configuration values become the tagged type `F64` below, which keeps
  exactly the distinctions `Duration::try_from_secs_f64` inspects
  (NaN / infinite / negative / finite magnitude);
* fallible operations return `Except ProcessError`, a Rust `unwrap` on an
  error becomes `Option.none` (a panic);
* the concurrent observer thread is embedded as a pure loop over the list of
  exit statuses its `waitpid` calls return, and the short-lived timer threads
  as pure functions of the shared state they read when they fire.
-/

/-- Model of an `f64` value as far as `Duration::try_from_secs_f64` can
distinguish it: NaN, the two infinities, or a finite rational magnitude. -/
inductive F64 where
  | nan
  | inf
  | negInf
  | finite (value : ℚ)
deriving DecidableEq, Repr

/-- `Duration::try_from_secs_f64`: fails on NaN, infinities, negative values
and values that overflow the `u64` seconds field of `Duration`; otherwise
returns the duration (modelled as a rational number of seconds). -/
def try_from_secs_f64 : F64 → Option ℚ
  | F64.finite q => if 0 ≤ q ∧ q < 2 ^ 64 then some q else none
  | _ => none

/-- `program.rs` `duration_from_f64`:
`Duration::try_from_secs_f64(value).unwrap_or_default()`. -/
def duration_from_f64 (value : F64) : ℚ :=
  (try_from_secs_f64 value).getD 0

/-- `config.rs` `RestartPolicy`. -/
inductive RestartPolicy where
  | never
  | always
  | onFailure
deriving DecidableEq, Repr

/-- `config.rs` `StopSignal`. -/
inductive StopSignal where
  | int
  | term
  | hup
  | quit
  | kill
  | usr1
  | usr2
  | stop
  | alarm
deriving DecidableEq, Repr

/-- `config.rs` `ProgramConfig` (paths are kept as strings; the
`environment` map as an association list). -/
structure ProgramConfig where
  command : String
  args : List String
  replicas : Nat
  at_launch : Bool
  restart : RestartPolicy
  exit_code : Nat
  healthy_uptime : F64
  retries : Nat
  signal : StopSignal
  exit_timeout : F64
  stdout : Option String
  stderr : Option String
  stdin : Option String
  environment : List (String × String)
  workdir : Option String
  umask : Option Nat
deriving DecidableEq, Repr

/-- `WTERMSIG` on a wait status (low 7 bits). -/
def WTERMSIG (status : Nat) : Nat := status % 128

/-- `WIFEXITED` on a wait status. -/
def WIFEXITED (status : Nat) : Bool := status % 128 == 0

/-- `WEXITSTATUS` on a wait status (bits 8..15). -/
def WEXITSTATUS (status : Nat) : Nat := (status / 256) % 256

/-- `WIFSIGNALED` on a wait status: the terminating-signal field is in
1..=126 (127 is the stopped marker, 0 means a normal exit). -/
def WIFSIGNALED (status : Nat) : Bool := 1 ≤ status % 128 && status % 128 ≤ 126

/-- `program.rs` `ExitCode`: opaque wrapper around the raw wait status. -/
structure ExitCode where
  status : Nat
deriving DecidableEq, Repr

/-- `program.rs` `ExitCode::like_bash`. -/
def ExitCode.like_bash (e : ExitCode) : Nat :=
  if WIFEXITED e.status then WEXITSTATUS e.status
  else if WIFSIGNALED e.status then 128 + WTERMSIG e.status
  else e.status

/-- `program.rs` `ProcessError`. -/
inductive ProcessError where
  | alreadyStarted
  | notStarted
  | io (message : String)
deriving DecidableEq, Repr

/-- `program.rs` `ObserverState`: the intent record guarded by the mutex. -/
structure ObserverState where
  process_removed : Bool
  standby : Bool
  restart : Bool
deriving DecidableEq, Repr

/-- `program.rs` `ProcessName`. -/
structure ProcessName where
  name : String
  index : Nat
deriving DecidableEq, Repr

/-- `program.rs` `RunningProcess`: the RunningChild cell content,
`started_at` is an `Instant` modelled as a `Nat` timestamp. -/
structure RunningProcess where
  started_at : Nat
  pid : Nat
deriving DecidableEq, Repr

/-- `logs.rs` `LogEventKind`. -/
inductive LogEventKind where
  | starting
  | started
  | failed (message : String)
  | exited (status : ExitCode)
  | killed
deriving DecidableEq, Repr

/-- `program.rs` `ProcessState`: the state shared between the `Process`
handle, the observer thread and the timer threads (the condition variable
carries no data and is omitted; the log sender is modelled by returning
emitted events where relevant). -/
structure ProcState where
  name : ProcessName
  config : ProgramConfig
  observer : ObserverState
  pid : Option RunningProcess
deriving DecidableEq, Repr

/-- `program.rs` `ProcessState::send_stop_signal`: fails `NotStarted` when
the RunningChild cell is empty; a delivered signal is modelled as
succeeding. -/
def sendStopSignal (s : ProcState) : Except ProcessError Unit :=
  match s.pid with
  | none => Except.error ProcessError.notStarted
  | some _ => Except.ok ()

/-- `program.rs` `ProcessState::force_stop`: set `standby`, then send
SIGKILL through `send_stop_signal` (the intent mutation happens first and
is kept even when the send fails). -/
def force_stop (s : ProcState) : Except ProcessError Unit × ProcState :=
  let s1 := { s with observer := { s.observer with standby := true } }
  (sendStopSignal s1, s1)

/-- `program.rs` `Process::launch`: fail `AlreadyStarted` when a child is
running, otherwise clear `standby` (the observer will spawn). -/
def launch (s : ProcState) : Except ProcessError Unit × ProcState :=
  if s.pid.isSome then (Except.error ProcessError.alreadyStarted, s)
  else (Except.ok (), { s with observer := { s.observer with standby := false } })

/-- `program.rs` `Process::request_restart`: set `standby` and the one-shot
`restart` flag, then send the configured stop signal; the send's error is
returned but the intent mutation is not rolled back. -/
def request_restart (s : ProcState) : Except ProcessError Unit × ProcState :=
  let s1 := { s with observer := { s.observer with standby := true, restart := true } }
  (sendStopSignal s1, s1)

/-- `program.rs` `impl Drop for Process`: `self.force_stop().unwrap()` then
mark `process_removed` (and notify the observer). `none` models the panic
of the `unwrap` when `force_stop` returns an error. -/
def drop_process (s : ProcState) : Option ProcState :=
  match force_stop s with
  | (Except.error _, _) => none
  | (Except.ok _, s1) =>
    some { s1 with observer := { s1.observer with process_removed := true } }

/-- `program.rs` `Process::request_stop`, body of the deadline thread after
its sleep: read the RunningChild cell and, iff it holds a process whose
`started_at` is earlier than the recorded stop-request instant, force-KILL
it and emit a `Killed` event. Returns (kill sent?, events emitted). -/
def stopDeadlineFire (running : Option RunningProcess)
    (stop_request_instant : Nat) : Bool × List LogEventKind :=
  match running with
  | some rp =>
    if rp.started_at < stop_request_instant then (true, [LogEventKind.killed])
    else (false, [])
  | none => (false, [])

/-- `program.rs` `process_observer`, top of the `'main` loop once the
condition-variable wait has returned: if `restart` is set, consume it and
reset the retry counter. -/
def consumeRestart (st : ObserverState) (retry_count : Nat) : ObserverState × Nat :=
  if st.restart then ({ st with restart := false }, 0) else (st, retry_count)

/-- `program.rs` `process_observer`, the restart decision after `waitpid`
returned `status`: `OnFailure` with the expected bash-like code sets
`standby`; `OnFailure` (otherwise) and `Always` bump the retry counter and
set `standby` once it exceeds `retries`; `Never` sets `standby`. Returns
the new retry counter and intent. -/
def restartDecision (cfg : ProgramConfig) (status : ExitCode) (retry_count : Nat)
    (st : ObserverState) : Nat × ObserverState :=
  match cfg.restart with
  | RestartPolicy.onFailure =>
    if status.like_bash = cfg.exit_code then
      (retry_count, { st with standby := true })
    else
      let rc := retry_count + 1
      (rc, if rc > cfg.retries then { st with standby := true } else st)
  | RestartPolicy.always =>
    let rc := retry_count + 1
    (rc, if rc > cfg.retries then { st with standby := true } else st)
  | RestartPolicy.never => (retry_count, { st with standby := true })

/-- `program.rs` `process_observer`, the `'main` loop, embedded over the
list of statuses successive `waitpid` calls return. Each iteration first
blocks while `standby && !restart` (modelled as ending the run: the
supervisor stays in standby until an operator command), then consumes the
`restart` flag, spawns (counted), waits for the exit status, and applies
`restartDecision`. Returns the number of spawns performed and the final
intent record. -/
def observerLoop (cfg : ProgramConfig) (retry_count : Nat) (st : ObserverState) :
    List ExitCode → Nat × ObserverState
  | [] => (0, st)
  | status :: rest =>
    if st.standby && !st.restart then (0, st)
    else
      let p1 := consumeRestart st retry_count
      let p2 := restartDecision cfg status p1.2 p1.1
      let p3 := observerLoop cfg p2.1 p2.2 rest
      (p3.1 + 1, p3.2)

/-- The label the log consumer prints for an event. -/
inductive Label where
  | STARTING
  | STARTED
  | FAILED
  | EXITED
  | KILLED
deriving DecidableEq, Repr

/-- `logs.rs` `gather_logs`, label choice for an `Exited(status)` event:
look up the owning supervisor's configuration by the event's name
(`owner`); print FAILED when it is found and its configured `exit_code`
does not contain `status.like_bash()` (with the scalar `exit_code` of
`config.rs`, containment is equality), otherwise EXITED. -/
def exitedLabel (owner : Option ProgramConfig) (status : ExitCode) : Label :=
  match owner with
  | some cfg =>
    if cfg.exit_code == status.like_bash then Label.EXITED else Label.FAILED
  | none => Label.EXITED

/-- What the registry keeps per replica: a `Process` as reachable from
`commands.rs` (its name and its configuration; the live observer state of
each `Process` is modelled separately by `ProcState`). -/
structure RegProcess where
  name : ProcessName
  config : ProgramConfig
deriving DecidableEq, Repr

/-- `config.rs` `ConfigDiff`. -/
inductive ConfigDiff where
  | addedProgram (name : String) (config : ProgramConfig)
  | removedProgram (name : String)
  | modifiedProgram (name : String) (config : ProgramConfig)
deriving DecidableEq, Repr

/-- `config.rs` `Config`: the `programs` BTreeMap as an association list in
key order. -/
structure Config where
  programs : List (String × ProgramConfig)
deriving DecidableEq, Repr

/-- `BTreeMap::contains_key` on the association list. -/
def containsKey (m : List (String × ProgramConfig)) (k : String) : Bool :=
  m.any (fun p => p.1 == k)

/-- `BTreeMap::get` on the association list. -/
def getKey (m : List (String × ProgramConfig)) (k : String) : Option ProgramConfig :=
  (m.find? (fun p => p.1 == k)).map (fun p => p.2)

/-- `config.rs` `Config::diff_since`: programs in `new` but not `old` are
added; programs in `old` but not `new` are removed; programs in both with a
different body are modified — in that order. -/
def Config.diff_since (new : Config) (old : Config) : List ConfigDiff :=
  ((new.programs.filter (fun p => !containsKey old.programs p.1)).map
      (fun p => ConfigDiff.addedProgram p.1 p.2))
    ++ ((old.programs.filter (fun p => !containsKey new.programs p.1)).map
      (fun p => ConfigDiff.removedProgram p.1))
    ++ (new.programs.filterMap (fun p =>
      match getKey old.programs p.1 with
      | some old_program =>
        if old_program ≠ p.2 then some (ConfigDiff.modifiedProgram p.1 p.2) else none
      | none => none))

/-- `commands.rs` `reload`, effect of one `ConfigDiff` on the registry's
process list:
* `AddedProgram` pushes one new `Process` per replica index;
* `ModifiedProgram` retains the processes whose program-name equals the
  modified name, then pushes the new replicas;
* `RemovedProgram` retains the processes whose program-name equals the
  removed name (this is the `retain` call of `commands.rs` lines 129–131,
  embedded as written). -/
def applyDiff (processes : List RegProcess) : ConfigDiff → List RegProcess
  | ConfigDiff.addedProgram name cfg =>
    processes ++ (List.range cfg.replicas).map
      (fun i => { name := { name := name, index := i }, config := cfg })
  | ConfigDiff.modifiedProgram name cfg =>
    (processes.filter (fun p => p.name.name == name))
      ++ (List.range cfg.replicas).map
        (fun i => { name := { name := name, index := i }, config := cfg })
  | ConfigDiff.removedProgram name =>
    processes.filter (fun p => p.name.name == name)

/-- The `Taskmaster` registry as used by `commands.rs`: the sequence of
supervisors and the remembered configuration (the log sender is omitted). -/
structure Taskmaster where
  processes : List RegProcess
  config : Config
deriving DecidableEq, Repr

/-- `commands.rs` `reload`: on a parse error, print and return leaving the
registry untouched; on success, return early when the diff is empty,
otherwise apply every diff in order and then replace the remembered
configuration. The parse outcome is the `parse_result` argument (file I/O
is external). -/
def reload (parse_result : Except String Config) (tm : Taskmaster) : Taskmaster :=
  match parse_result with
  | Except.error _ => tm
  | Except.ok new_config =>
    let diff := new_config.diff_since tm.config
    if diff.isEmpty then tm
    else
      { processes := diff.foldl applyDiff tm.processes, config := new_config }

/-- A configuration with the `config.rs` `defaults` module values
(`command` is arbitrary; `replicas = 1`, `at_launch = false`,
`restart = Never`, `exit_code = 0`, `healthy_uptime = 0`, `retries = 3`,
`signal = SIGINT`, `exit_timeout = 10`). -/
def defaultConfig : ProgramConfig :=
  { command := "/bin/true"
    args := []
    replicas := 1
    at_launch := false
    restart := RestartPolicy.never
    exit_code := 0
    healthy_uptime := F64.finite 0
    retries := 3
    signal := StopSignal.int
    exit_timeout := F64.finite 10
    stdout := none
    stderr := none
    stdin := none
    environment := []
    workdir := none
    umask := none }

/-- A supervisor in standby with no running child. -/
def sIdle : ProcState :=
  { name := { name := "a", index := 0 }
    config := defaultConfig
    observer := { process_removed := false, standby := true, restart := false }
    pid := none }

/-- A supervisor with a running child (pid 42, started at instant 0). -/
def sRunning : ProcState :=
  { sIdle with pid := some { started_at := 0, pid := 42 } }

/-- `restart = Always` with the default retry budget of 3. -/
def cfgAlways3 : ProgramConfig :=
  { defaultConfig with restart := RestartPolicy.always }

/-- `restart = OnFailure` expecting exit code 0. -/
def cfgOnFailure : ProgramConfig :=
  { defaultConfig with restart := RestartPolicy.onFailure }

/-- Four unexpected exits: wait status 256 is a normal exit with code 1. -/
def exits4 : List ExitCode :=
  [ExitCode.mk 256, ExitCode.mk 256, ExitCode.mk 256, ExitCode.mk 256]

/-- An empty registry with an empty remembered configuration. -/
def tmEmpty : Taskmaster := { processes := [], config := { programs := [] } }

/-- A configuration adding one program `a`. -/
def cfgNewA : Config := { programs := [("a", defaultConfig)] }

/-- Once the intent is `standby` with the `restart` flag clear, the observer
performs no further spawns and the intent is unchanged. -/
theorem observerLoop_standby (cfg : ProgramConfig) (rc : Nat) (pr : Bool)
    (exits : List ExitCode) :
    observerLoop cfg rc ⟨pr, true, false⟩ exits = (0, ⟨pr, true, false⟩) := by
  cases exits with
  | nil => rfl
  | cons status rest => simp [observerLoop]

/-- Retry-budget recurrence: under `Always` or `OnFailure`, when every exit
is unexpected and the observer starts active with retry counter `c ≤
retries`, it performs exactly `retries + 1 - c` further spawns and ends in
standby. -/
theorem observerLoop_budget (cfg : ProgramConfig)
    (hpol : cfg.restart = RestartPolicy.always ∨ cfg.restart = RestartPolicy.onFailure)
    (exits : List ExitCode)
    (hun : ∀ e ∈ exits, e.like_bash ≠ cfg.exit_code)
    (c : Nat) (hc : c ≤ cfg.retries)
    (hlen : cfg.retries + 1 - c ≤ exits.length) :
    observerLoop cfg c ⟨false, false, false⟩ exits
      = (cfg.retries + 1 - c, ⟨false, true, false⟩) := by
  induction exits generalizing c with
  | nil =>
    simp only [List.length_nil, Nat.le_zero] at hlen
    omega
  | cons status rest ih =>
    have hstatus : status.like_bash ≠ cfg.exit_code := hun status (List.mem_cons_self _ _)
    have hdec : restartDecision cfg status c ⟨false, false, false⟩
        = (c + 1, if c + 1 > cfg.retries then ⟨false, true, false⟩ else ⟨false, false, false⟩) := by
      rcases hpol with h | h
      · simp [restartDecision, h]
      · simp [restartDecision, h, hstatus]
    by_cases hlast : c = cfg.retries
    · have hgt : c + 1 > cfg.retries := by omega
      simp [observerLoop, consumeRestart, hdec, hgt, observerLoop_standby]
      omega
    · have hc' : c + 1 ≤ cfg.retries := by omega
      have hnot : ¬(c + 1 > cfg.retries) := by omega
      have hlen' : cfg.retries + 1 - (c + 1) ≤ rest.length := by
        simp only [List.length_cons] at hlen
        omega
      have hun' : ∀ e ∈ rest, e.like_bash ≠ cfg.exit_code :=
        fun e he => hun e (List.mem_cons_of_mem _ he)
      have := ih hun' (c + 1) hc' hlen'
      simp [observerLoop, consumeRestart, hdec, hnot, this]
      omega

/-- C1: the claim says applying a `Removed` diff drops every replica of the
removed program-name and keeps every other supervisor. The code's `retain`
keeps exactly the replicas whose name equals the removed name and discards
all the others: on a registry holding `a-0` and `b-0`, removing `a` yields
`[a-0]` instead of the claimed `[b-0]`. -/
theorem c1_removed_program_inverted :
    applyDiff
        [{ name := ⟨"a", 0⟩, config := defaultConfig },
         { name := ⟨"b", 0⟩, config := defaultConfig }]
        (ConfigDiff.removedProgram "a")
      = [{ name := ⟨"a", 0⟩, config := defaultConfig }] ∧
    applyDiff
        [{ name := ⟨"a", 0⟩, config := defaultConfig },
         { name := ⟨"b", 0⟩, config := defaultConfig }]
        (ConfigDiff.removedProgram "a")
      ≠ [{ name := ⟨"b", 0⟩, config := defaultConfig }] := by
  constructor
  · rfl
  · decide

/-- C2: with policy `Always` (or `OnFailure` and unexpected exits), starting
from an active intent with retry counter 0, the observer performs exactly
`retries + 1` spawns — the initial failing spawn plus `retries` retries —
and the `(retries+1)`-th unexpected exit leaves the intent in standby (no
further spawns until an operator command); moreover consuming the `restart`
flag always resets the retry counter to 0. -/
theorem c2_retry_budget (cfg : ProgramConfig)
    (hpol : cfg.restart = RestartPolicy.always ∨ cfg.restart = RestartPolicy.onFailure)
    (exits : List ExitCode)
    (hun : ∀ e ∈ exits, e.like_bash ≠ cfg.exit_code)
    (hlen : cfg.retries + 1 ≤ exits.length) :
    observerLoop cfg 0 ⟨false, false, false⟩ exits
      = (cfg.retries + 1, ⟨false, true, false⟩) ∧
    ∀ st rc, st.restart = true → consumeRestart st rc = ({ st with restart := false }, 0) := by
  constructor
  · have := observerLoop_budget cfg hpol exits hun 0 (Nat.zero_le _) (by omega)
    simpa using this
  · intro st rc h
    simp [consumeRestart, h]

/-- Witness for C2: `retries = 3`, policy `Always`, four unexpected exits
(status 256, bash-like code 1): exactly 4 spawns, ending in standby. -/
theorem c2_retry_budget_witness :
    observerLoop cfgAlways3 0 ⟨false, false, false⟩ exits4 = (4, ⟨false, true, false⟩) :=
  (c2_retry_budget cfgAlways3 (Or.inl rfl) exits4 (by decide) (by decide)).1

/-- C3: the stop-deadline thread sends SIGKILL and emits `Killed` exactly
when the RunningChild cell is non-empty and its `started_at` is earlier
than the recorded stop-request instant; in particular a spawn started at or
after the recorded instant is never force-KILLed by it. -/
theorem c3_stop_deadline_same_spawn (running : Option RunningProcess)
    (stop_request_instant : Nat) :
    (stopDeadlineFire running stop_request_instant = (true, [LogEventKind.killed]) ↔
      ∃ rp, running = some rp ∧ rp.started_at < stop_request_instant) ∧
    (∀ rp, running = some rp → stop_request_instant ≤ rp.started_at →
      stopDeadlineFire running stop_request_instant = (false, [])) := by
  constructor
  · cases running with
    | none => simp [stopDeadlineFire]
    | some rp =>
      by_cases h : rp.started_at < stop_request_instant <;>
        simp [stopDeadlineFire, h]
  · intro rp hrun hle
    rw [hrun]
    simp [stopDeadlineFire, Nat.not_lt.mpr hle]

/-- Witness for C3: a child started at instant 5 with a stop recorded at
instant 3 (a spawn later than the stop request) is not killed. -/
theorem c3_stop_deadline_same_spawn_witness :
    stopDeadlineFire (some { started_at := 5, pid := 42 }) 3 = (false, []) :=
  (c3_stop_deadline_same_spawn (some { started_at := 5, pid := 42 }) 3).2
    { started_at := 5, pid := 42 } rfl (by decide)

/-- C4: under `OnFailure`, an exit whose bash-like code equals the
configured `exit_code` sets standby without touching the retry counter (no
respawn); any other exit bumps the retry counter and sets standby exactly
when it exceeds `retries`. -/
theorem c4_onfailure_expected_exit (cfg : ProgramConfig)
    (hpol : cfg.restart = RestartPolicy.onFailure)
    (status : ExitCode) (rc : Nat) (st : ObserverState) :
    (status.like_bash = cfg.exit_code →
      restartDecision cfg status rc st = (rc, { st with standby := true })) ∧
    (status.like_bash ≠ cfg.exit_code →
      restartDecision cfg status rc st =
        (rc + 1, if rc + 1 > cfg.retries then { st with standby := true } else st)) := by
  constructor <;> intro h <;> simp [restartDecision, hpol, h]

/-- Witness for C4: `OnFailure` with expected code 0 and a normal exit with
status 0 keeps the retry counter at 2 and sets standby. -/
theorem c4_onfailure_expected_exit_witness :
    restartDecision cfgOnFailure (ExitCode.mk 0) 2 ⟨false, false, false⟩
      = (2, ⟨false, true, false⟩) :=
  (c4_onfailure_expected_exit cfgOnFailure rfl (ExitCode.mk 0) 2
    ⟨false, false, false⟩).1 rfl

/-- C5: an `Exited` event whose owning supervisor is found is labelled
FAILED exactly when the supervisor's configured `exit_code` differs from
`status.like_bash()`, and EXITED otherwise. -/
theorem c5_exit_classification (cfg : ProgramConfig) (status : ExitCode) :
    (exitedLabel (some cfg) status = Label.FAILED ↔
      cfg.exit_code ≠ status.like_bash) ∧
    (exitedLabel (some cfg) status = Label.EXITED ↔
      cfg.exit_code = status.like_bash) := by
  by_cases h : cfg.exit_code = status.like_bash <;>
    simp [exitedLabel, h]

/-- C6: the claim says destruction force-stops any child, marks
`process_removed` and wakes the observer, succeeding whether or not a child
is running. Dropping a supervisor with a running child does behave so, but
`Drop` unwraps `force_stop`, which returns `NotStarted` when the
RunningChild cell is empty: dropping an idle supervisor panics before
`process_removed` is ever set. -/
theorem c6_drop_not_total :
    drop_process sIdle = none ∧
    drop_process sRunning
      = some { sRunning with observer := ⟨true, true, false⟩ } :=
  ⟨rfl, rfl⟩

/-- C7: `launch` fails `AlreadyStarted` exactly when the RunningChild cell
is non-empty; with no child running it clears `standby` and succeeds. -/
theorem c7_launch_already_started (s : ProcState) :
    ((launch s).1 = Except.error ProcessError.alreadyStarted ↔ s.pid.isSome = true) ∧
    (s.pid = none →
      launch s = (Except.ok (),
        { s with observer := { s.observer with standby := false } })) := by
  constructor
  · cases h : s.pid <;> simp [launch, h]
  · intro h
    simp [launch, h]

/-- Witness for C7: launching the idle supervisor succeeds and clears
`standby`. -/
theorem c7_launch_already_started_witness :
    launch sIdle = (Except.ok (),
      { sIdle with observer := { sIdle.observer with standby := false } }) :=
  (c7_launch_already_started sIdle).2 rfl

/-- C8: a reload whose parse fails leaves the registry (processes and
remembered configuration) unchanged; a successful parse with a non-empty
diff applies every diff in order to the process list and only then replaces
the remembered configuration with the new one. -/
theorem c8_reload_atomicity (parse_result : Except String Config) (tm : Taskmaster) :
    (∀ e, parse_result = Except.error e → reload parse_result tm = tm) ∧
    (∀ new_config, parse_result = Except.ok new_config →
      new_config.diff_since tm.config ≠ [] →
      reload parse_result tm =
        { processes := (new_config.diff_since tm.config).foldl applyDiff tm.processes,
          config := new_config }) := by
  constructor
  · intro e he
    subst he
    rfl
  · intro nc hok hne
    have hne' : (nc.diff_since tm.config).isEmpty = false := by
      cases hd : nc.diff_since tm.config with
      | nil => exact absurd hd hne
      | cons a l => rfl
    rw [hok]
    simp [reload, hne']

/-- Witness for C8: a failed parse leaves the empty registry unchanged, and
a successful parse adding `a` applies that diff and stores the new
configuration. -/
theorem c8_reload_atomicity_witness :
    reload (Except.error "bad") tmEmpty = tmEmpty ∧
    reload (Except.ok cfgNewA) tmEmpty =
      { processes := (cfgNewA.diff_since tmEmpty.config).foldl applyDiff tmEmpty.processes,
        config := cfgNewA } :=
  ⟨(c8_reload_atomicity (Except.error "bad") tmEmpty).1 "bad" rfl,
   (c8_reload_atomicity (Except.ok cfgNewA) tmEmpty).2 cfgNewA rfl (by decide)⟩

/-- C9: with no running child, `request_restart` returns `NotStarted` but
has already set both `standby` and the one-shot `restart` flag, and the
mutation is not rolled back; the observer's wait condition
`standby && !restart` is false on the resulting intent, so the observer
proceeds to respawn despite the reported failure. -/
theorem c9_restart_error_keeps_intent (s : ProcState) (h : s.pid = none) :
    (request_restart s).1 = Except.error ProcessError.notStarted ∧
    (request_restart s).2.observer.standby = true ∧
    (request_restart s).2.observer.restart = true ∧
    ((request_restart s).2.observer.standby
      && !(request_restart s).2.observer.restart) = false := by
  simp [request_restart, sendStopSignal, h]

/-- Witness for C9: restarting the idle supervisor reports `NotStarted` yet
leaves the `restart` flag set. -/
theorem c9_restart_error_keeps_intent_witness :
    (request_restart sIdle).1 = Except.error ProcessError.notStarted ∧
    (request_restart sIdle).2.observer.restart = true :=
  ⟨(c9_restart_error_keeps_intent sIdle rfl).1,
   (c9_restart_error_keeps_intent sIdle rfl).2.2.1⟩

/-- C10: `duration_from_f64` is total and bounded — every value yields a
duration in `[0, 2 ^ 64)` seconds — and every NaN, infinite, negative or
out-of-range value is mapped to the zero duration rather than failing. -/
theorem c10_duration_total (value : F64) :
    (0 ≤ duration_from_f64 value ∧ duration_from_f64 value < 2 ^ 64) ∧
    duration_from_f64 F64.nan = 0 ∧
    duration_from_f64 F64.inf = 0 ∧
    duration_from_f64 F64.negInf = 0 ∧
    (∀ q : ℚ, q < 0 → duration_from_f64 (F64.finite q) = 0) ∧
    (∀ q : ℚ, (2 : ℚ) ^ 64 ≤ q → duration_from_f64 (F64.finite q) = 0) := by
  refine ⟨?_, rfl, rfl, rfl, ?_, ?_⟩
  · have h0 : (0 : ℚ) < 2 ^ 64 := by norm_num
    cases value with
    | nan => exact ⟨le_refl 0, h0⟩
    | inf => exact ⟨le_refl 0, h0⟩
    | negInf => exact ⟨le_refl 0, h0⟩
    | finite q =>
      by_cases hq : 0 ≤ q ∧ q < 2 ^ 64
      · simp [duration_from_f64, try_from_secs_f64, hq]
      · have hz : duration_from_f64 (F64.finite q) = 0 := by
          simp [duration_from_f64, try_from_secs_f64, hq]
        rw [hz]
        exact ⟨le_refl 0, h0⟩
  · intro q hq
    have hno : ¬(0 ≤ q ∧ q < 2 ^ 64) := by
      intro hc
      linarith [hc.1]
    simp [duration_from_f64, try_from_secs_f64, hno]
  · intro q hq
    have hno : ¬(0 ≤ q ∧ q < 2 ^ 64) := by
      intro hc
      linarith [hc.2]
    simp [duration_from_f64, try_from_secs_f64, hno]

/-- Witness for C10: the negative value -1 and NaN both map to the zero
duration. -/
theorem c10_duration_total_witness :
    duration_from_f64 (F64.finite (-1)) = 0 ∧ duration_from_f64 F64.nan = 0 :=
  ⟨(c10_duration_total (F64.finite (-1))).2.2.2.2.1 (-1) (by norm_num),
   (c10_duration_total F64.nan).2.1⟩
